import Mathlib

/-!
Shallow embedding of the authentication and session-security subsystem of
the `llmteachme` backend (`src/modules/auth/auth.controller.ts`, bundled
`AuthService`, together with the Mongoose schemas `user.schema.ts`,
`refresh-token.schema.ts` and `security-log.schema.ts`).

The stateful NestJS service is modelled as pure functions over an explicit
`AuthState`. bcrypt is modelled as a salted one-way hash whose comparison
recovers exactly equality with the original preimage, and `JwtService`
signing/verification is modelled by a record carrying the payload, the
issued-at / expiry timestamps and the signing secret. Time is passed
explicitly (`now : Nat`, seconds). Mongoose queries are modelled over
lists in insertion order (`find` returns documents in natural order).
A `trace` of datastore effects records the order of mutations, which the
ordering claims refer to.
-/

namespace LlmTeachMe

/-- Abstract model of a bcrypt hash: keeps the preimage (never revealed to
clients in the model; only `bcryptCompare` can look at it) and the salt used
at hashing time, so that hashing the same value twice with different salts
gives different hash values, as bcrypt does. -/
structure BHash (α : Type) where
  pre : α
  salt : Nat
deriving DecidableEq, Repr

/-- `bcrypt.hash(raw, 10)` with an explicit salt drawn from the state. -/
def bcryptHash {α : Type} (raw : α) (salt : Nat) : BHash α := ⟨raw, salt⟩

/-- `bcrypt.compare(raw, stored)`: verifies iff the stored hash was computed
from exactly this raw value. -/
def bcryptCompare {α : Type} [BEq α] (raw : α) (h : BHash α) : Bool :=
  h.pre == raw

/-- JWT payload, as built in `generateTokens` / `refreshToken`:
`{ sub, userId, name, role }`. -/
structure JwtPayload where
  sub : Nat
  userId : Nat
  name : String
  role : String
deriving DecidableEq, Repr

/-- Abstract signed JWT: payload plus issued-at, expiry (absolute seconds)
and the signing secret. Signing is deterministic, as HS256 is: two `sign`
calls with the same payload, secret and clock second produce the same
token. -/
structure Jwt where
  payload : JwtPayload
  iat : Nat
  exp : Nat
  secret : Nat
deriving DecidableEq, Repr

/-- `jwtService.sign(payload, { expiresIn })`. -/
def jwtSign (secret : Nat) (now : Nat) (expiresIn : Nat) (p : JwtPayload) : Jwt :=
  { payload := p, iat := now, exp := now + expiresIn, secret := secret }

/-- `jwtService.verify(token)`: succeeds iff the token was signed with the
server secret and its expiry claim has not passed. -/
def jwtVerify (secret : Nat) (now : Nat) (t : Jwt) : Option JwtPayload :=
  if t.secret == secret && decide (now < t.exp) then some t.payload else none

/-- Access-token lifetime: `expiresIn: '15m'`. -/
def accessTokenTtl : Nat := 15 * 60

/-- Refresh-token lifetime: `expiresIn: '7d'`, and the ledger record's
`expiresAt = now + 7 days`. -/
def refreshTokenTtl : Nat := 7 * 24 * 60 * 60

/-- `User` schema (`user.schema.ts`): name, hashed password, role,
preferred topics, active flag; `id` models Mongo's `_id`. -/
structure Account where
  id : Nat
  name : String
  password : BHash String
  role : String
  preferredTopics : List String
  isActive : Bool
deriving DecidableEq, Repr

/-- `UserStats` schema, created at registration. -/
structure UserStats where
  userId : Nat
  totalConversations : Nat
  streak : Nat
  favoriteConversationsCount : Nat
deriving DecidableEq, Repr

/-- `RefreshToken` schema (`refresh-token.schema.ts`): salted hash of the
raw refresh token, owning user, expiry, optional device fingerprint. -/
structure RefreshTokenRecord where
  id : Nat
  token : BHash Jwt
  userId : Nat
  expiresAt : Nat
  userAgent : Option String
  ipAddress : Option String
deriving DecidableEq, Repr

/-- The typed `metadata` subdocument of the `SecurityLog` schema, plus the
`tokensRevoked` count that `revokeAllSessions` writes into it. -/
structure SecurityMetadata where
  originalIP : Option String := none
  originalUserAgent : Option String := none
  suspiciousIP : Option String := none
  suspiciousUserAgent : Option String := none
  tokensRevoked : Option Nat := none
deriving DecidableEq, Repr

/-- `SecurityLog` schema (`security-log.schema.ts`): append-only audit
entry. -/
structure SecurityLog where
  userId : Nat
  action : String
  description : String
  metadata : SecurityMetadata
deriving DecidableEq, Repr

/-- Datastore effects, recorded in order of execution so that claims about
the order of side effects can be stated. -/
inductive DbEffect where
  | userInserted (id : Nat)
  | userSaved (id : Nat)
  | statsInserted (userId : Nat)
  | tokenInserted (id : Nat)
  | tokenDeletedOne (id : Nat)
  | tokensDeletedMany (userId : Nat)
  | securityLogCreated (action : String)
deriving DecidableEq, Repr

/-- The whole persistent state the auth subsystem reads and writes:
the four Mongo collections, fresh-id and fresh-salt counters, and the
server's JWT secret. Lists are in insertion order. -/
structure AuthState where
  users : List Account
  userStats : List UserStats
  refreshTokens : List RefreshTokenRecord
  securityLogs : List SecurityLog
  nextId : Nat
  nextSalt : Nat
  jwtSecret : Nat
  trace : List DbEffect
deriving DecidableEq, Repr

/-- Error taxonomy actually thrown by the service: `UnauthorizedException`
and `ConflictException`, each carrying the message NestJS serializes into
the response body. -/
inductive AuthError where
  | unauthorized (message : String)
  | conflict (message : String)
deriving DecidableEq, Repr

/-- `userModel.findOne({ name })`. -/
def findOneByName (st : AuthState) (n : String) : Option Account :=
  st.users.find? (fun u => u.name == n)

/-- `userModel.findById(id)`. -/
def findById (st : AuthState) (uid : Nat) : Option Account :=
  st.users.find? (fun u => u.id == uid)

/-- JavaScript truthiness of an optional string: `undefined` and `""` are
falsy (`validToken.userAgent && validToken.ipAddress`). -/
def truthyStr : Option String → Bool
  | none => false
  | some s => !(s == "")

/-- `refreshTokenModel.deleteOne({ _id })`: removes the first record with
the given id. -/
def deleteOneById (l : List RefreshTokenRecord) (i : Nat) : List RefreshTokenRecord :=
  match l with
  | [] => []
  | r :: rest => if r.id == i then rest else r :: deleteOneById rest i

/-- Body of `POST /auth/register` (`RegisterDto`): name, password and
optional preferred topics; the DTO carries no role and no active flag. -/
structure RegisterDto where
  name : String
  password : String
  preferredTopics : Option (List String)
deriving DecidableEq, Repr

/-- Body of `POST /auth/login` (`LoginDto`). -/
structure LoginDto where
  name : String
  password : String
deriving DecidableEq, Repr

/-- `AuthService.register`: conflict if the name exists, otherwise create
the user with hashed password, role `user`, active, then create its
`UserStats`. -/
def register (st : AuthState) (dto : RegisterDto) :
    AuthState × Except AuthError String :=
  match findOneByName st dto.name with
  | some _ => (st, .error (.conflict "User with this name already exists"))
  | none =>
    let hashedPassword := bcryptHash dto.password st.nextSalt
    let user : Account :=
      { id := st.nextId
        name := dto.name
        password := hashedPassword
        preferredTopics := dto.preferredTopics.getD []
        role := "user"
        isActive := true }
    let st1 : AuthState :=
      { st with
        users := st.users ++ [user]
        nextId := st.nextId + 1
        nextSalt := st.nextSalt + 1
        trace := st.trace ++ [.userInserted user.id] }
    let stats : UserStats :=
      { userId := user.id
        totalConversations := 0
        streak := 0
        favoriteConversationsCount := 0 }
    let st2 : AuthState :=
      { st1 with
        userStats := st1.userStats ++ [stats]
        trace := st1.trace ++ [.statsInserted user.id] }
    (st2, .ok "Usuario creado exitosamente")

/-- `AuthService.generateTokens`: sign access (15m) and refresh (7d)
tokens, store a salted hash of the refresh token with the device
fingerprint and `expiresAt = now + 7d`. -/
def generateTokens (st : AuthState) (user : Account)
    (userAgent ipAddress : Option String) (now : Nat) :
    AuthState × Jwt × Jwt :=
  let payload : JwtPayload :=
    { sub := user.id, userId := user.id, name := user.name, role := user.role }
  let accessToken := jwtSign st.jwtSecret now accessTokenTtl payload
  let refreshTok := jwtSign st.jwtSecret now refreshTokenTtl payload
  let hashedToken := bcryptHash refreshTok st.nextSalt
  let record : RefreshTokenRecord :=
    { id := st.nextId
      token := hashedToken
      userId := user.id
      expiresAt := now + refreshTokenTtl
      userAgent := userAgent
      ipAddress := ipAddress }
  ({ st with
      refreshTokens := st.refreshTokens ++ [record]
      nextId := st.nextId + 1
      nextSalt := st.nextSalt + 1
      trace := st.trace ++ [.tokenInserted record.id] },
   accessToken, refreshTok)

/-- The sanitized user projection returned by `login` / `GET /auth/me`
(`sanitizeUser`: the password hash is dropped). -/
structure SanitizedUser where
  id : Nat
  name : String
  role : String
  preferredTopics : List String
  isActive : Bool
deriving DecidableEq, Repr

def sanitizeUser (u : Account) : SanitizedUser :=
  { id := u.id, name := u.name, role := u.role
    preferredTopics := u.preferredTopics, isActive := u.isActive }

/-- Result of a successful login. -/
structure LoginResult where
  accessToken : Jwt
  refreshToken : Jwt
  user : SanitizedUser
deriving DecidableEq, Repr

/-- `AuthService.login`: find user by name, verify password, check active
flag, then `generateTokens`. -/
def login (st : AuthState) (dto : LoginDto)
    (userAgent ipAddress : Option String) (now : Nat) :
    AuthState × Except AuthError LoginResult :=
  match findOneByName st dto.name with
  | none => (st, .error (.unauthorized "Invalid credentials"))
  | some user =>
    if !(bcryptCompare dto.password user.password) then
      (st, .error (.unauthorized "Invalid credentials"))
    else if !user.isActive then
      (st, .error (.unauthorized "User account is disabled"))
    else
      let (st1, accessToken, refreshTok) :=
        generateTokens st user userAgent ipAddress now
      (st1, .ok { accessToken := accessToken, refreshToken := refreshTok
                  user := sanitizeUser user })

/-- `AuthService.validateUser`: find by id, fail unless present and
active. -/
def validateUser (st : AuthState) (uid : Nat) : Except AuthError Account :=
  match findById st uid with
  | none => .error (.unauthorized "User not found or inactive")
  | some u =>
    if u.isActive then .ok u
    else .error (.unauthorized "User not found or inactive")

/-- `AuthService.refreshToken`, the Rotation Engine: verify the signature,
resolve and validate the subject, load all of the user's ledger records,
linearly scan for a record whose hash verifies against the presented raw
token, reject and delete on expiry, run the fingerprint anomaly check when
both sides carry complete (truthy) fingerprints — on mismatch delete all
of the user's records, append a `suspicious_activity` SecurityLog and
fail — otherwise mint a new access token. Every failure is an
`UnauthorizedException` (the catch-all rewraps anything else, which in
this model is only the signature-verification failure). -/
def refreshToken (st : AuthState) (raw : Jwt)
    (userAgent ipAddress : Option String) (now : Nat) :
    AuthState × Except AuthError Jwt :=
  match jwtVerify st.jwtSecret now raw with
  | none => (st, .error (.unauthorized "Invalid refresh token"))
  | some payload =>
    match validateUser st payload.sub with
    | .error e => (st, .error e)
    | .ok user =>
      let storedTokens := st.refreshTokens.filter (fun r => r.userId == user.id)
      if storedTokens.isEmpty then
        (st, .error (.unauthorized "No refresh token found"))
      else
        match storedTokens.find? (fun r => bcryptCompare raw r.token) with
        | none => (st, .error (.unauthorized "Invalid refresh token"))
        | some validToken =>
          if validToken.expiresAt < now then
            ({ st with
                refreshTokens := deleteOneById st.refreshTokens validToken.id
                trace := st.trace ++ [.tokenDeletedOne validToken.id] },
             .error (.unauthorized "Refresh token expired"))
          else
            let hasStoredInfo :=
              truthyStr validToken.userAgent && truthyStr validToken.ipAddress
            let hasCurrentInfo := truthyStr userAgent && truthyStr ipAddress
            let accessToken :=
              jwtSign st.jwtSecret now accessTokenTtl
                { sub := user.id, userId := user.id
                  name := user.name, role := user.role }
            if hasStoredInfo && hasCurrentInfo then
              let userAgentMatch := validToken.userAgent == userAgent
              let ipMatch := validToken.ipAddress == ipAddress
              if !userAgentMatch || !ipMatch then
                let st1 : AuthState :=
                  { st with
                    refreshTokens :=
                      st.refreshTokens.filter (fun r => !(r.userId == user.id))
                    trace := st.trace ++ [.tokensDeletedMany user.id] }
                let log : SecurityLog :=
                  { userId := user.id
                    action := "suspicious_activity"
                    description := "Refresh token used from different device/location"
                    metadata :=
                      { originalIP := validToken.ipAddress
                        originalUserAgent := validToken.userAgent
                        suspiciousIP := ipAddress
                        suspiciousUserAgent := userAgent
                        tokensRevoked := none } }
                ({ st1 with
                    securityLogs := st1.securityLogs ++ [log]
                    trace := st1.trace ++ [.securityLogCreated "suspicious_activity"] },
                 .error (.unauthorized
                   "Suspicious activity detected. All sessions have been revoked. Please login again."))
              else
                (st, .ok accessToken)
            else
              (st, .ok accessToken)

/-- `AuthService.logout`: delete every refresh-token record of the user;
never fails. -/
def logout (st : AuthState) (userId : Nat) : AuthState :=
  { st with
    refreshTokens := st.refreshTokens.filter (fun r => !(r.userId == userId))
    trace := st.trace ++ [.tokensDeletedMany userId] }

/-- `AuthService.changePassword`: verify the current password, then
(1) save the new password hash, (2) delete all of the user's
refresh-token records, (3) append a `password_changed` SecurityLog —
in that order. -/
def changePassword (st : AuthState) (userId : Nat)
    (currentPassword newPassword : String) :
    AuthState × Except AuthError String :=
  match findById st userId with
  | none => (st, .error (.unauthorized "User not found"))
  | some user =>
    if !(bcryptCompare currentPassword user.password) then
      (st, .error (.unauthorized "Current password is incorrect"))
    else
      let newHash := bcryptHash newPassword st.nextSalt
      let st1 : AuthState :=
        { st with
          users := st.users.map
            (fun u => if u.id == user.id then { u with password := newHash } else u)
          nextSalt := st.nextSalt + 1
          trace := st.trace ++ [.userSaved user.id] }
      let st2 : AuthState :=
        { st1 with
          refreshTokens := st1.refreshTokens.filter (fun r => !(r.userId == user.id))
          trace := st1.trace ++ [.tokensDeletedMany user.id] }
      let log : SecurityLog :=
        { userId := user.id
          action := "password_changed"
          description := "User changed their password"
          metadata := {} }
      let st3 : AuthState :=
        { st2 with
          securityLogs := st2.securityLogs ++ [log]
          trace := st2.trace ++ [.securityLogCreated "password_changed"] }
      (st3, .ok "Password changed successfully. Please login again on all devices.")

/-- `AuthService.revokeAllSessions`: delete all of the user's
refresh-token records (zero deletions is success) and append an
`all_tokens_revoked` SecurityLog recording `deletedCount`. -/
def revokeAllSessions (st : AuthState) (userId : Nat) :
    AuthState × Except AuthError String :=
  match findById st userId with
  | none => (st, .error (.unauthorized "User not found"))
  | some user =>
    let deletedCount :=
      (st.refreshTokens.filter (fun r => r.userId == user.id)).length
    let st1 : AuthState :=
      { st with
        refreshTokens := st.refreshTokens.filter (fun r => !(r.userId == user.id))
        trace := st.trace ++ [.tokensDeletedMany user.id] }
    let log : SecurityLog :=
      { userId := user.id
        action := "all_tokens_revoked"
        description := "User revoked all sessions"
        metadata := { tokensRevoked := some deletedCount } }
    let st2 : AuthState :=
      { st1 with
        securityLogs := st1.securityLogs ++ [log]
        trace := st1.trace ++ [.securityLogCreated "all_tokens_revoked"] }
    (st2, .ok s!"All sessions revoked successfully. {deletedCount} device(s) logged out.")

/-! Concrete fixtures used to exercise the model on closed inputs. -/

/-- A registered, active demo account. -/
def demoUser : Account :=
  { id := 0, name := "alice", password := bcryptHash "secret1" 0
    role := "user", preferredTopics := [], isActive := true }

/-- A concrete state holding only the demo account. -/
def demoSt : AuthState :=
  { users := [demoUser], userStats := [], refreshTokens := [], securityLogs := []
    nextId := 1, nextSalt := 1, jwtSecret := 42, trace := [] }

/-- The JWT payload `generateTokens` builds for the demo account. -/
def cPayload : JwtPayload := { sub := 0, userId := 0, name := "alice", role := "user" }

/-- The refresh token issued to the demo account by a login at `now = 1000`. -/
def cRefreshJwt : Jwt := jwtSign 42 1000 refreshTokenTtl cPayload

/-- The access token minted for the demo account at `now = 1000`. -/
def cAccessJwt : Jwt := jwtSign 42 1000 accessTokenTtl cPayload

/-- State after the demo account logs in from device A at `now = 1000`. -/
def cSt1 : AuthState :=
  (login demoSt ⟨"alice", "secret1"⟩ (some "DeviceA") (some "1.1.1.1") 1000).1

/-- State after a second login from device B in the same second. -/
def cSt2 : AuthState :=
  (login cSt1 ⟨"alice", "secret1"⟩ (some "DeviceB") (some "2.2.2.2") 1000).1

/-- A manually aged ledger record: its `expiresAt` has passed while the raw
token's own `exp` claim is still in the future. -/
def cExpRec : RefreshTokenRecord :=
  { id := 1, token := bcryptHash cRefreshJwt 1, userId := 0, expiresAt := 500
    userAgent := none, ipAddress := none }

/-- Demo state holding the aged record. -/
def cExpSt : AuthState :=
  { demoSt with refreshTokens := [cExpRec], nextId := 2, nextSalt := 2 }

/-- State after the demo account logs in from a client that sent no
fingerprint data. -/
def cNoFpSt : AuthState :=
  (login demoSt ⟨"alice", "secret1"⟩ none none 1000).1

/-- The ledger record written by the device-A login (the single record in
`cSt1`). -/
def cRecA : RefreshTokenRecord :=
  { id := 1, token := bcryptHash cRefreshJwt 1, userId := 0
    expiresAt := 1000 + refreshTokenTtl
    userAgent := some "DeviceA", ipAddress := some "1.1.1.1" }

/-- The ledger record written by the fingerprint-less login (the single
record in `cNoFpSt`). -/
def cRecNoFp : RefreshTokenRecord :=
  { id := 1, token := bcryptHash cRefreshJwt 1, userId := 0
    expiresAt := 1000 + refreshTokenTtl
    userAgent := none, ipAddress := none }

/-! Helper lemmas about the model's list primitives. -/

theorem find?_append_of_forall_false {α : Type} (p : α → Bool) (l1 l2 : List α)
    (h : ∀ x ∈ l1, p x = false) : (l1 ++ l2).find? p = l2.find? p := by
  induction l1 with
  | nil => rfl
  | cons a t ih =>
    rw [List.cons_append,
      List.find?_cons_of_neg _ (by simp [h a (List.mem_cons_self a t)])]
    exact ih (fun x hx => h x (List.mem_cons_of_mem a hx))

theorem filter_of_filter_not {α : Type} (p : α → Bool) (l : List α) :
    (l.filter fun a => !(p a)).filter p = [] := by
  induction l with
  | nil => rfl
  | cons a t ih => cases hp : p a <;> simp [List.filter_cons, hp, ih]

theorem deleteOneById_length (l : List RefreshTokenRecord) (i : Nat)
    (h : ∃ r ∈ l, r.id = i) : (deleteOneById l i).length + 1 = l.length := by
  induction l with
  | nil => simp at h
  | cons a t ih =>
    by_cases ha : a.id = i
    · simp [deleteOneById, ha]
    · obtain ⟨r, hr, hri⟩ := h
      have hrt : r ∈ t := by
        rcases List.mem_cons.mp hr with h1 | h1
        · subst h1; exact absurd hri ha
        · exact h1
      have hb : (a.id == i) = false := by simp [ha]
      simp only [deleteOneById, hb, Bool.false_eq_true, if_false, List.length_cons]
      have := ih ⟨r, hrt, hri⟩
      omega

theorem validateUser_ok_spec (st : AuthState) (uid : Nat) (u : Account)
    (h : validateUser st uid = Except.ok u) :
    u.id = uid ∧ u.isActive = true ∧ u ∈ st.users := by
  unfold validateUser findById at h
  split at h
  · simp_all
  next v hfind =>
    split at h
    next hact =>
      cases h
      have h1 := List.find?_some hfind
      have h2 := List.mem_of_find?_eq_some hfind
      simp only [beq_iff_eq] at h1
      exact ⟨h1, hact, h2⟩
    · simp_all

theorem jwtVerify_jwtSign (secret now ttl : Nat) (p : JwtPayload) (h : 0 < ttl) :
    jwtVerify secret now (jwtSign secret now ttl p) = some p := by
  simp [jwtVerify, jwtSign, h]

theorem findById_of_mem_unique (l : List Account) (u : Account)
    (hmem : u ∈ l) (huniq : l.Pairwise (fun a b => a.id ≠ b.id)) :
    l.find? (fun x => x.id == u.id) = some u := by
  induction l with
  | nil => simp at hmem
  | cons a t ih =>
    rcases List.mem_cons.mp hmem with h1 | h1
    · subst h1
      simp [List.find?]
    · have hne : a.id ≠ u.id := (List.pairwise_cons.mp huniq).1 u h1
      rw [List.find?_cons_of_neg _ (by simp [hne])]
      exact ih h1 (List.pairwise_cons.mp huniq).2

theorem refresh_succeeds_of (st : AuthState) (raw : Jwt)
    (ua ip : Option String) (now : Nat)
    (payload : JwtPayload) (user : Account) (r : RefreshTokenRecord)
    (hver : jwtVerify st.jwtSecret now raw = some payload)
    (huser : validateUser st payload.sub = Except.ok user)
    (hfind : (st.refreshTokens.filter (fun t => t.userId == user.id)).find?
        (fun t => bcryptCompare raw t.token) = some r)
    (hexp : ¬ r.expiresAt < now)
    (hua : r.userAgent = ua) (hip : r.ipAddress = ip) :
    refreshToken st raw ua ip now =
      (st, Except.ok (jwtSign st.jwtSecret now accessTokenTtl
        { sub := user.id, userId := user.id, name := user.name, role := user.role })) := by
  subst hua
  subst hip
  have hne : (st.refreshTokens.filter (fun t => t.userId == user.id)).isEmpty = false := by
    cases hc : st.refreshTokens.filter (fun t => t.userId == user.id) with
    | nil => rw [hc] at hfind; simp at hfind
    | cons a l => rfl
  cases hb : (truthyStr r.userAgent && truthyStr r.ipAddress) with
  | false =>
    simp only [refreshToken, hver, huser, hne, hfind, Bool.false_eq_true, if_false,
      if_neg hexp, hb, Bool.false_and]
  | true =>
    simp only [refreshToken, hver, huser, hne, hfind, Bool.false_eq_true, if_false,
      if_neg hexp, hb, Bool.true_and, beq_self_eq_true, Bool.not_true, Bool.or_self,
      if_true]

/-! Claim theorems. -/

/-- C10: every account created through the public `register` operation has
role `"user"` and `isActive = true`, for every request body: `RegisterDto`
carries no role or active-flag field, and `register` fixes both values at
creation. -/
theorem register_creates_user_role_active (st : AuthState) (dto : RegisterDto)
    (st' : AuthState) (msg : String)
    (h : register st dto = (st', Except.ok msg)) :
    ∃ u : Account, st'.users = st.users ++ [u] ∧
      u.role = "user" ∧ u.isActive = true := by
  unfold register at h
  split at h
  · simp_all
  · simp only [Prod.mk.injEq] at h
    obtain ⟨h1, -⟩ := h
    subst h1
    exact ⟨_, rfl, rfl, rfl⟩

theorem register_creates_user_role_active_witness :
    ∃ u : Account,
      ((register demoSt ⟨"bob", "pw123456", none⟩).1).users = demoSt.users ++ [u] ∧
      u.role = "user" ∧ u.isActive = true :=
  register_creates_user_role_active demoSt ⟨"bob", "pw123456", none⟩
    (register demoSt ⟨"bob", "pw123456", none⟩).1 "Usuario creado exitosamente" (by rfl)

/-- C4: a successful refresh leaves the entire state — in particular every
ledger record of every account, and the matched record — unchanged, and
returns only a freshly minted 15-minute access token; the presented
refresh token is not rotated or deleted. -/
theorem refresh_success_frame (st : AuthState) (raw : Jwt)
    (ua ip : Option String) (now : Nat) (st' : AuthState) (tok : Jwt)
    (h : refreshToken st raw ua ip now = (st', Except.ok tok)) :
    st' = st ∧ st'.refreshTokens = st.refreshTokens ∧
      ∃ p : JwtPayload, tok = jwtSign st.jwtSecret now accessTokenTtl p := by
  simp only [refreshToken] at h
  repeat' split at h
  all_goals simp_all
  all_goals obtain ⟨h1, h2⟩ := h
  all_goals subst h1
  all_goals exact ⟨_, h2.symm⟩

theorem refresh_success_frame_witness :
    cSt1 = cSt1 ∧ cSt1.refreshTokens = cSt1.refreshTokens ∧
      ∃ p : JwtPayload, cAccessJwt = jwtSign cSt1.jwtSecret 1000 accessTokenTtl p :=
  refresh_success_frame cSt1 cRefreshJwt (some "DeviceA") (some "1.1.1.1") 1000
    cSt1 cAccessJwt (by rfl)

/-- C2: a refresh can only succeed when the pre-state ledger holds a record
owned by the verified token's subject whose stored hash verifies against
the presented raw token — a valid signature alone never suffices. -/
theorem refresh_success_requires_ledger_match (st : AuthState) (raw : Jwt)
    (ua ip : Option String) (now : Nat) (st' : AuthState) (tok : Jwt)
    (h : refreshToken st raw ua ip now = (st', Except.ok tok)) :
    ∃ (p : JwtPayload) (r : RefreshTokenRecord),
      jwtVerify st.jwtSecret now raw = some p ∧
      r ∈ st.refreshTokens ∧ r.userId = p.sub ∧
      bcryptCompare raw r.token = true := by
  simp only [refreshToken] at h
  split at h
  · simp_all
  next payload hver =>
    split at h
    · simp_all
    next user huser =>
      split at h
      · simp_all
      split at h
      · simp_all
      next validToken hfind =>
        have hp := List.find?_some hfind
        have hmem := List.mem_of_find?_eq_some hfind
        obtain ⟨hmem', hown⟩ := List.mem_filter.mp hmem
        have hid := (validateUser_ok_spec st payload.sub user huser).1
        refine ⟨payload, validToken, hver, hmem', ?_, hp⟩
        simp only [beq_iff_eq] at hown
        rw [hown, hid]

theorem refresh_success_requires_ledger_match_witness :
    ∃ (p : JwtPayload) (r : RefreshTokenRecord),
      jwtVerify cSt1.jwtSecret 1000 cRefreshJwt = some p ∧
      r ∈ cSt1.refreshTokens ∧ r.userId = p.sub ∧
      bcryptCompare cRefreshJwt r.token = true :=
  refresh_success_requires_ledger_match cSt1 cRefreshJwt
    (some "DeviceA") (some "1.1.1.1") 1000 cSt1 cAccessJwt (by rfl)

/-- C1: when the matched ledger record and the current request both carry
complete fingerprints and either the user-agent or the IP differs, the
refresh fails with `Unauthorized`, every ledger record owned by the
account is deleted (not only the matched one), and exactly one
`suspicious_activity` SecurityLog is appended carrying both the
fingerprint stored at issuance and the suspicious one from the request. -/
theorem refresh_anomaly_revokes_all (st : AuthState) (raw : Jwt)
    (ua ip : Option String) (now : Nat)
    (payload : JwtPayload) (user : Account) (r : RefreshTokenRecord)
    (hver : jwtVerify st.jwtSecret now raw = some payload)
    (huser : validateUser st payload.sub = Except.ok user)
    (hfind : (st.refreshTokens.filter (fun t => t.userId == user.id)).find?
        (fun t => bcryptCompare raw t.token) = some r)
    (hexp : ¬ r.expiresAt < now)
    (hsUA : truthyStr r.userAgent = true) (hsIP : truthyStr r.ipAddress = true)
    (hcUA : truthyStr ua = true) (hcIP : truthyStr ip = true)
    (hmis : r.userAgent ≠ ua ∨ r.ipAddress ≠ ip) :
    (refreshToken st raw ua ip now).2 = Except.error (AuthError.unauthorized
        "Suspicious activity detected. All sessions have been revoked. Please login again.") ∧
    (refreshToken st raw ua ip now).1.refreshTokens
        = st.refreshTokens.filter (fun t => !(t.userId == user.id)) ∧
    (∀ t ∈ (refreshToken st raw ua ip now).1.refreshTokens, t.userId ≠ user.id) ∧
    (refreshToken st raw ua ip now).1.securityLogs = st.securityLogs ++
      [{ userId := user.id, action := "suspicious_activity",
         description := "Refresh token used from different device/location",
         metadata := { originalIP := r.ipAddress, originalUserAgent := r.userAgent,
                       suspiciousIP := ip, suspiciousUserAgent := ua, tokensRevoked := none } }] := by
  have hne : (st.refreshTokens.filter (fun t => t.userId == user.id)).isEmpty = false := by
    cases hc : st.refreshTokens.filter (fun t => t.userId == user.id) with
    | nil => rw [hc] at hfind; simp at hfind
    | cons a l => rfl
  have hmm : (!(r.userAgent == ua) || !(r.ipAddress == ip)) = true := by
    rcases hmis with h | h <;> simp [h]
  have heval : refreshToken st raw ua ip now =
      ({ st with
          refreshTokens := st.refreshTokens.filter (fun t => !(t.userId == user.id)),
          securityLogs := st.securityLogs ++
            [{ userId := user.id, action := "suspicious_activity",
               description := "Refresh token used from different device/location",
               metadata := { originalIP := r.ipAddress, originalUserAgent := r.userAgent,
                             suspiciousIP := ip, suspiciousUserAgent := ua, tokensRevoked := none } }],
          trace := st.trace ++ [DbEffect.tokensDeletedMany user.id]
            ++ [DbEffect.securityLogCreated "suspicious_activity"] },
       Except.error (AuthError.unauthorized
        "Suspicious activity detected. All sessions have been revoked. Please login again.")) := by
    simp only [refreshToken, hver, huser, hne, hfind, hsUA, hsIP, hcUA, hcIP, hmm,
      Bool.false_eq_true, if_false, if_neg hexp, Bool.and_self, if_true]
  rw [heval]
  refine ⟨rfl, rfl, ?_, rfl⟩
  intro t ht
  have := (List.mem_filter.mp ht).2
  simp at this
  exact this

theorem refresh_anomaly_revokes_all_witness :
    (refreshToken cSt1 cRefreshJwt (some "DeviceB") (some "2.2.2.2") 1000).2
      = Except.error (AuthError.unauthorized
        "Suspicious activity detected. All sessions have been revoked. Please login again.") ∧
    (∀ t ∈ (refreshToken cSt1 cRefreshJwt (some "DeviceB") (some "2.2.2.2") 1000).1.refreshTokens,
      t.userId ≠ demoUser.id) ∧
    (refreshToken cSt1 cRefreshJwt (some "DeviceB") (some "2.2.2.2") 1000).1.securityLogs
      = cSt1.securityLogs ++
        [{ userId := demoUser.id, action := "suspicious_activity",
           description := "Refresh token used from different device/location",
           metadata := { originalIP := cRecA.ipAddress, originalUserAgent := cRecA.userAgent,
                         suspiciousIP := some "2.2.2.2", suspiciousUserAgent := some "DeviceB",
                         tokensRevoked := none } }] := by
  obtain ⟨h1, -, h3, h4⟩ := refresh_anomaly_revokes_all cSt1 cRefreshJwt (some "DeviceB")
    (some "2.2.2.2") 1000 cPayload demoUser cRecA rfl rfl rfl (by decide) rfl rfl rfl rfl
    (Or.inl (by decide))
  exact ⟨h1, h3, h4⟩

/-- C5: when the linear hash scan matches a ledger record whose expiry has
passed, the refresh fails with `Unauthorized("Refresh token expired")` and
exactly that one record is deleted from the ledger. -/
theorem refresh_expired_deletes_record (st : AuthState) (raw : Jwt)
    (ua ip : Option String) (now : Nat)
    (payload : JwtPayload) (user : Account) (r : RefreshTokenRecord)
    (hver : jwtVerify st.jwtSecret now raw = some payload)
    (huser : validateUser st payload.sub = Except.ok user)
    (hfind : (st.refreshTokens.filter (fun t => t.userId == user.id)).find?
        (fun t => bcryptCompare raw t.token) = some r)
    (hexp : r.expiresAt < now) :
    refreshToken st raw ua ip now =
      ({ st with
          refreshTokens := deleteOneById st.refreshTokens r.id,
          trace := st.trace ++ [DbEffect.tokenDeletedOne r.id] },
       Except.error (AuthError.unauthorized "Refresh token expired")) ∧
    r ∈ st.refreshTokens ∧
    st.refreshTokens.length = (deleteOneById st.refreshTokens r.id).length + 1 := by
  have hne : (st.refreshTokens.filter (fun t => t.userId == user.id)).isEmpty = false := by
    cases hc : st.refreshTokens.filter (fun t => t.userId == user.id) with
    | nil => rw [hc] at hfind; simp at hfind
    | cons a l => rfl
  have hmem : r ∈ st.refreshTokens :=
    (List.mem_filter.mp (List.mem_of_find?_eq_some hfind)).1
  refine ⟨?_, hmem, (deleteOneById_length st.refreshTokens r.id ⟨r, hmem, rfl⟩).symm⟩
  simp only [refreshToken, hver, huser, hne, hfind, Bool.false_eq_true, if_false,
    if_pos hexp]

theorem refresh_expired_deletes_record_witness :
    refreshToken cExpSt cRefreshJwt none none 1000 =
      ({ cExpSt with
          refreshTokens := deleteOneById cExpSt.refreshTokens cExpRec.id,
          trace := cExpSt.trace ++ [DbEffect.tokenDeletedOne cExpRec.id] },
       Except.error (AuthError.unauthorized "Refresh token expired")) ∧
    cExpRec ∈ cExpSt.refreshTokens ∧
    cExpSt.refreshTokens.length = (deleteOneById cExpSt.refreshTokens cExpRec.id).length + 1 :=
  refresh_expired_deletes_record cExpSt cRefreshJwt none none 1000
    cPayload demoUser cExpRec rfl rfl rfl (by decide)

/-- C6: when either the matched record or the current request lacks a
complete fingerprint, the consistency check is skipped: the refresh
succeeds with the state untouched — no revocation and no SecurityLog —
even if the components that are present differ. -/
theorem refresh_partial_fingerprint_skips_check (st : AuthState) (raw : Jwt)
    (ua ip : Option String) (now : Nat)
    (payload : JwtPayload) (user : Account) (r : RefreshTokenRecord)
    (hver : jwtVerify st.jwtSecret now raw = some payload)
    (huser : validateUser st payload.sub = Except.ok user)
    (hfind : (st.refreshTokens.filter (fun t => t.userId == user.id)).find?
        (fun t => bcryptCompare raw t.token) = some r)
    (hexp : ¬ r.expiresAt < now)
    (hmiss : r.userAgent = none ∨ r.ipAddress = none ∨ ua = none ∨ ip = none) :
    refreshToken st raw ua ip now =
      (st, Except.ok (jwtSign st.jwtSecret now accessTokenTtl
        { sub := user.id, userId := user.id
          name := user.name, role := user.role })) := by
  have hne : (st.refreshTokens.filter (fun t => t.userId == user.id)).isEmpty = false := by
    cases hc : st.refreshTokens.filter (fun t => t.userId == user.id) with
    | nil => rw [hc] at hfind; simp at hfind
    | cons a l => rfl
  have hb : ((truthyStr r.userAgent && truthyStr r.ipAddress)
      && (truthyStr ua && truthyStr ip)) = false := by
    rcases hmiss with h | h | h | h <;> simp [h, truthyStr]
  simp only [refreshToken, hver, huser, hne, hfind, Bool.false_eq_true, if_false,
    if_neg hexp, hb]

theorem refresh_partial_fingerprint_skips_check_witness :
    refreshToken cNoFpSt cRefreshJwt (some "DeviceX") (some "9.9.9.9") 1000 =
      (cNoFpSt, Except.ok (jwtSign cNoFpSt.jwtSecret 1000 accessTokenTtl
        { sub := demoUser.id, userId := demoUser.id
          name := demoUser.name, role := demoUser.role })) :=
  refresh_partial_fingerprint_skips_check cNoFpSt cRefreshJwt
    (some "DeviceX") (some "9.9.9.9") 1000 cPayload demoUser cRecNoFp
    rfl rfl rfl (by decide) (Or.inl rfl)

theorem validateUser_error_spec (st : AuthState) (uid : Nat) (e : AuthError)
    (h : validateUser st uid = Except.error e) :
    e = AuthError.unauthorized "User not found or inactive" := by
  unfold validateUser at h
  repeat' split at h
  all_goals simp_all

/-- C7 counterexample: two concrete failing refresh calls whose
user-visible `UnauthorizedException` messages differ (`"No refresh token
found"` versus `"Refresh token expired"`), refuting the claim that the
response body never distinguishes the failure cause. -/
theorem refresh_error_messages_differ :
    (refreshToken demoSt cRefreshJwt none none 1000).2
      = Except.error (AuthError.unauthorized "No refresh token found") ∧
    (refreshToken cExpSt cRefreshJwt none none 1000).2
      = Except.error (AuthError.unauthorized "Refresh token expired") ∧
    AuthError.unauthorized "No refresh token found"
      ≠ AuthError.unauthorized "Refresh token expired" :=
  ⟨rfl, rfl, by decide⟩

/-- C7 (amended): every terminal failure of the refresh flow is reported
as the `Unauthorized` error kind — never `Conflict` or anything else — but
the exception message does distinguish the cause, ranging over the five
fixed diagnostic strings thrown by the service. -/
theorem refresh_failure_always_unauthorized (st : AuthState) (raw : Jwt)
    (ua ip : Option String) (now : Nat) (st' : AuthState) (e : AuthError)
    (h : refreshToken st raw ua ip now = (st', Except.error e)) :
    ∃ m : String, e = AuthError.unauthorized m ∧
      m ∈ ["Invalid refresh token", "User not found or inactive",
           "No refresh token found", "Refresh token expired",
           "Suspicious activity detected. All sessions have been revoked. Please login again."] := by
  cases hver : jwtVerify st.jwtSecret now raw with
  | none =>
    simp only [refreshToken, hver, Prod.mk.injEq, Except.error.injEq] at h
    exact ⟨_, h.2.symm, by simp⟩
  | some payload =>
    cases hval : validateUser st payload.sub with
    | error e' =>
      have h2 := validateUser_error_spec st payload.sub e' hval
      simp only [refreshToken, hver, hval, Prod.mk.injEq, Except.error.injEq] at h
      obtain ⟨-, he⟩ := h
      subst he
      exact ⟨_, h2, by simp⟩
    | ok user =>
      simp only [refreshToken, hver, hval] at h
      repeat' split at h
      all_goals simp only [Prod.mk.injEq, Except.error.injEq] at h
      all_goals first
        | exact ⟨_, h.2.symm, by simp⟩
        | exact absurd h.2 (by simp)

theorem refresh_failure_always_unauthorized_witness :
    ∃ m : String,
      AuthError.unauthorized "No refresh token found" = AuthError.unauthorized m ∧
      m ∈ ["Invalid refresh token", "User not found or inactive",
           "No refresh token found", "Refresh token expired",
           "Suspicious activity detected. All sessions have been revoked. Please login again."] :=
  refresh_failure_always_unauthorized demoSt cRefreshJwt none none 1000 demoSt
    (AuthError.unauthorized "No refresh token found") (by rfl)

/-- C8: `revokeAllSessions` succeeds for every existing account even when
zero records remain, and run twice in a row the second call also succeeds,
deleting zero records and appending an `all_tokens_revoked` SecurityLog
whose metadata records the deleted count `0`. -/
theorem revokeAllSessions_idempotent (st : AuthState) (uid : Nat) (user : Account)
    (h : findById st uid = some user) :
    (∃ m1 : String, (revokeAllSessions st uid).2 = Except.ok m1) ∧
    (∃ m2 : String,
      (revokeAllSessions (revokeAllSessions st uid).1 uid).2 = Except.ok m2) ∧
    (revokeAllSessions (revokeAllSessions st uid).1 uid).1.securityLogs
      = (revokeAllSessions st uid).1.securityLogs ++
        [{ userId := user.id, action := "all_tokens_revoked",
           description := "User revoked all sessions",
           metadata := { tokensRevoked := some 0 } }] := by
  set stA := (revokeAllSessions st uid).1 with hstA
  have h1 : stA.users = st.users := by
    rw [hstA]; simp only [revokeAllSessions, h]
  have h2 : findById stA uid = some user := by
    simp only [findById, h1]
    simpa only [findById] using h
  have h3 : stA.refreshTokens
      = st.refreshTokens.filter (fun r => !(r.userId == user.id)) := by
    rw [hstA]; simp only [revokeAllSessions, h]
  have hcount : (stA.refreshTokens.filter (fun r => r.userId == user.id)).length = 0 := by
    rw [h3, filter_of_filter_not]
    rfl
  refine ⟨?_, ?_, ?_⟩
  · cases hr : (revokeAllSessions st uid).2 with
    | error e =>
      simp only [revokeAllSessions, h] at hr
      exact absurd hr (by simp)
    | ok m => exact ⟨m, rfl⟩
  · cases hr : (revokeAllSessions stA uid).2 with
    | error e =>
      simp only [revokeAllSessions, h2] at hr
      exact absurd hr (by simp)
    | ok m => exact ⟨m, rfl⟩
  · simp only [revokeAllSessions, h2, hcount]

theorem revokeAllSessions_idempotent_witness :
    (∃ m1 : String, (revokeAllSessions cSt1 0).2 = Except.ok m1) ∧
    (∃ m2 : String,
      (revokeAllSessions (revokeAllSessions cSt1 0).1 0).2 = Except.ok m2) ∧
    (revokeAllSessions (revokeAllSessions cSt1 0).1 0).1.securityLogs
      = (revokeAllSessions cSt1 0).1.securityLogs ++
        [{ userId := demoUser.id, action := "all_tokens_revoked",
           description := "User revoked all sessions",
           metadata := { tokensRevoked := some 0 } }] :=
  revokeAllSessions_idempotent cSt1 0 demoUser (by rfl)

/-- C9: `changePassword` fails with `Unauthorized` and leaves the state
untouched when the current password does not verify; on success it
(1) saves the new password hash, then (2) deletes every refresh-token
record of the account, then (3) appends a `password_changed` SecurityLog —
in exactly that order, as witnessed by the effect trace. -/
theorem changePassword_spec (st : AuthState) (uid : Nat) (user : Account)
    (cur newPw : String)
    (h : findById st uid = some user) :
    (bcryptCompare cur user.password = false →
      changePassword st uid cur newPw =
        (st, Except.error (AuthError.unauthorized "Current password is incorrect"))) ∧
    (bcryptCompare cur user.password = true →
      ∃ (st' : AuthState) (msg : String),
        changePassword st uid cur newPw = (st', Except.ok msg) ∧
        st'.users = st.users.map (fun u =>
          if u.id == user.id then { u with password := bcryptHash newPw st.nextSalt } else u) ∧
        st'.refreshTokens = st.refreshTokens.filter (fun r => !(r.userId == user.id)) ∧
        (∃ e : SecurityLog, st'.securityLogs = st.securityLogs ++ [e] ∧
          e.action = "password_changed") ∧
        st'.trace = st.trace ++ [DbEffect.userSaved user.id,
          DbEffect.tokensDeletedMany user.id,
          DbEffect.securityLogCreated "password_changed"]) := by
  constructor
  · intro hpw
    simp [changePassword, h, hpw]
  · intro hpw
    have heval : changePassword st uid cur newPw =
        ({ st with
            users := st.users.map (fun u =>
              if u.id == user.id then { u with password := bcryptHash newPw st.nextSalt } else u),
            nextSalt := st.nextSalt + 1,
            refreshTokens := st.refreshTokens.filter (fun r => !(r.userId == user.id)),
            securityLogs := st.securityLogs ++
              [{ userId := user.id, action := "password_changed",
                 description := "User changed their password", metadata := {} }],
            trace := st.trace ++ [DbEffect.userSaved user.id]
              ++ [DbEffect.tokensDeletedMany user.id]
              ++ [DbEffect.securityLogCreated "password_changed"] },
         Except.ok "Password changed successfully. Please login again on all devices.") := by
      simp only [changePassword, h, hpw, Bool.not_true, Bool.false_eq_true, if_false]
    refine ⟨_, _, heval, rfl, rfl, ⟨_, rfl, rfl⟩, ?_⟩
    simp

theorem changePassword_spec_witness :
    changePassword demoSt 0 "wrong" "newpass123"
      = (demoSt, Except.error (AuthError.unauthorized "Current password is incorrect")) ∧
    ∃ (st' : AuthState) (msg : String),
      changePassword demoSt 0 "secret1" "newpass123" = (st', Except.ok msg) ∧
      st'.trace = demoSt.trace ++ [DbEffect.userSaved demoUser.id,
        DbEffect.tokensDeletedMany demoUser.id,
        DbEffect.securityLogCreated "password_changed"] := by
  constructor
  · exact (changePassword_spec demoSt 0 demoUser "wrong" "newpass123" rfl).1 (by decide)
  · obtain ⟨st', msg, heq, -, -, -, htr⟩ :=
      (changePassword_spec demoSt 0 demoUser "secret1" "newpass123" rfl).2 (by decide)
    exact ⟨st', msg, heq, htr⟩

/-- C3 counterexample: with a device-A session already in the ledger, a
second successful login from device B in the same second deterministically
re-signs the identical refresh JWT; immediately refreshing with device B's
own token and fingerprint matches device A's record first and trips the
anomaly path, so the round-trip fails even though the login succeeded with
that very fingerprint. -/
theorem login_refresh_roundtrip_counterexample :
    login cSt1 ⟨"alice", "secret1"⟩ (some "DeviceB") (some "2.2.2.2") 1000
      = (cSt2, Except.ok
          { accessToken := cAccessJwt
            refreshToken := cRefreshJwt
            user := sanitizeUser demoUser }) ∧
    (refreshToken cSt2 cRefreshJwt (some "DeviceB") (some "2.2.2.2") 1000).2
      = Except.error (AuthError.unauthorized
          "Suspicious activity detected. All sessions have been revoked. Please login again.") :=
  ⟨rfl, rfl⟩

/-- C3 (amended): for every successful login, if account ids are unique
and no record already in the pre-login ledger verifies against the
returned refresh token (in particular whenever the fresh record is the
account's only matching one — ruling out the same-second duplicate-token
collision of the counterexample), then immediately passing the returned
refresh token to refresh with the same fingerprint succeeds and yields a
new access token, leaving the state unchanged. -/
theorem login_refresh_roundtrip_when_token_fresh
    (st : AuthState) (dto : LoginDto) (ua ip : Option String) (now : Nat)
    (st1 : AuthState) (res : LoginResult)
    (hids : st.users.Pairwise (fun a b => a.id ≠ b.id))
    (hlog : login st dto ua ip now = (st1, Except.ok res))
    (hfresh : ∀ r ∈ st.refreshTokens, bcryptCompare res.refreshToken r.token = false) :
    ∃ tok : Jwt, refreshToken st1 res.refreshToken ua ip now = (st1, Except.ok tok) := by
  simp only [login, generateTokens] at hlog
  split at hlog
  · simp at hlog
  next user hname =>
    split at hlog
    · simp at hlog
    next hpw' =>
      split at hlog
      · simp at hlog
      next hact' =>
        simp only [Bool.not_eq_true, Bool.not_eq_false] at hpw' hact'
        simp only [Prod.mk.injEq, Except.ok.injEq] at hlog
        obtain ⟨hst1, hres⟩ := hlog
        have hmem : user ∈ st.users := by
          have := hname
          unfold findOneByName at this
          exact List.mem_of_find?_eq_some this
        have hrt : res.refreshToken = jwtSign st.jwtSecret now refreshTokenTtl
            { sub := user.id, userId := user.id, name := user.name, role := user.role } := by
          rw [← hres]
        have hsecret : st1.jwtSecret = st.jwtSecret := by rw [← hst1]
        have husers : st1.users = st.users := by rw [← hst1]
        have htoks : st1.refreshTokens = st.refreshTokens ++
            [{ id := st.nextId,
               token := bcryptHash (jwtSign st.jwtSecret now refreshTokenTtl
                 { sub := user.id, userId := user.id, name := user.name, role := user.role })
                 st.nextSalt,
               userId := user.id, expiresAt := now + refreshTokenTtl,
               userAgent := ua, ipAddress := ip }] := by
          rw [← hst1]
        refine ⟨jwtSign st1.jwtSecret now accessTokenTtl
          { sub := user.id, userId := user.id, name := user.name, role := user.role }, ?_⟩
        rw [hrt]
        apply refresh_succeeds_of st1 _ ua ip now
          { sub := user.id, userId := user.id, name := user.name, role := user.role } user
          { id := st.nextId,
            token := bcryptHash (jwtSign st.jwtSecret now refreshTokenTtl
              { sub := user.id, userId := user.id, name := user.name, role := user.role })
              st.nextSalt,
            userId := user.id, expiresAt := now + refreshTokenTtl,
            userAgent := ua, ipAddress := ip }
        · rw [hsecret]
          exact jwtVerify_jwtSign _ _ _ _ (by norm_num [refreshTokenTtl])
        · show validateUser st1 user.id = Except.ok user
          have hact : user.isActive = true := by
            cases hab : user.isActive
            · rw [hab] at hact'; simp at hact'
            · rfl
          unfold validateUser findById
          rw [husers, findById_of_mem_unique st.users user hmem hids]
          simp [hact]
        · rw [htoks, List.filter_append]
          have hsingle : List.filter (fun t : RefreshTokenRecord => t.userId == user.id)
              [{ id := st.nextId,
                 token := bcryptHash (jwtSign st.jwtSecret now refreshTokenTtl
                   { sub := user.id, userId := user.id, name := user.name, role := user.role })
                   st.nextSalt,
                 userId := user.id, expiresAt := now + refreshTokenTtl,
                 userAgent := ua, ipAddress := ip }] =
              [{ id := st.nextId,
                 token := bcryptHash (jwtSign st.jwtSecret now refreshTokenTtl
                   { sub := user.id, userId := user.id, name := user.name, role := user.role })
                   st.nextSalt,
                 userId := user.id, expiresAt := now + refreshTokenTtl,
                 userAgent := ua, ipAddress := ip }] := by simp
          rw [hsingle]
          rw [find?_append_of_forall_false]
          · simp [bcryptCompare, bcryptHash]
          · intro x hx
            rw [← hrt]
            exact hfresh x (List.mem_filter.mp hx).1
        · show ¬ now + refreshTokenTtl < now
          simp [refreshTokenTtl]
        · rfl
        · rfl

theorem login_refresh_roundtrip_when_token_fresh_witness :
    ∃ tok : Jwt, refreshToken cSt1 cRefreshJwt (some "DeviceA") (some "1.1.1.1") 1000
      = (cSt1, Except.ok tok) :=
  login_refresh_roundtrip_when_token_fresh demoSt ⟨"alice", "secret1"⟩
    (some "DeviceA") (some "1.1.1.1") 1000 cSt1
    { accessToken := cAccessJwt, refreshToken := cRefreshJwt, user := sanitizeUser demoUser }
    (by simp [demoSt]) (by rfl) (by simp [demoSt])
